import Mathlib

/-
Verification of the energy-balance aggregation core of the health-tracker
dashboard (src/app.py, "Health Commander 4.0").

Shallow embedding conventions:
* Calendar dates are modelled as integers (day numbers); `timedelta(days=k)`
  is integer addition.  `daysFromCivil` converts a Gregorian civil date
  (year, month, day) to its day number so that concrete dates such as
  2024-03-15 can be named; it is the standard civil-from-days algorithm.
* Records are the cleaned rows of the dataframe `df`: after the cleaning
  block (app.py lines 70-78) a row has a date, a time string, a type string
  ("Food (In)", "Alcohol (In)" or "Exercise (Out)"), an item description and
  a numeric calorie value.  Calories are modelled as integers (the entry form
  only produces integer calorie values); exercise-only fields that no claim
  touches (duration, distance) are omitted.
* pandas operations are translated by their effect on these lists:
  `df[mask]` is `List.filter`, `groupby(...).sum()` followed by a left merge
  with `fillna(0)` is "sum of the matching rows, 0 when there are none",
  `groupby('Date')` enumerates the distinct dates in ascending order,
  `shift(1).fillna(0)` pairs each row of the grouped frame with the value of
  the previous row (0 for the first row), and a Python dict built by
  repeated insertion is a fold in which a later binding overwrites an
  earlier one.
-/

namespace HealthTracker

/-- Day number of a Gregorian civil date (days since 1970-01-01, the standard
civil-from-days algorithm); used only to name concrete dates. -/
def daysFromCivil (y m d : Int) : Int :=
  let y2 := if m ≤ 2 then y - 1 else y
  let era := (if 0 ≤ y2 then y2 else y2 - 399) / 400
  let yoe := y2 - era * 400
  let mp := (m + 9) % 12
  let doy := (153 * mp + 2) / 5 + d - 1
  let doe := yoe * 365 + yoe / 4 - yoe / 100 + doy
  era * 146097 + doe - 719468

/-- app.py line 12: `DAILY_BMR = 2400`. -/
def DAILY_BMR : Int := 2400

/-- One cleaned row of the dataframe `df` (app.py lines 66-78). -/
structure Record where
  date : Int
  time : String
  type : String
  item : String
  calories : Int
deriving DecidableEq

/-- The three settings of the view-mode radio button (app.py line 157). -/
inductive ViewMode
  | today
  | weekView
  | customRange
deriving DecidableEq

/-- app.py lines 162-184: pagination logic turning the view mode, the stored
offset and today's date (plus the two explicit date inputs of custom mode)
into the pair `(start_date, end_date)`.
`Today`: `effective_date = base_date + timedelta(days=offset)`, start = end.
`Week View`: `end_of_window = base_date + timedelta(weeks=offset)`,
`start_date = end_of_window - timedelta(days=6)`.
`Custom Range`: the two date inputs are used verbatim, with no validation. -/
def resolveWindow (mode : ViewMode) (offset base expStart expEnd : Int) : Int × Int :=
  match mode with
  | .today => (base + offset, base + offset)
  | .weekView => (base + 7 * offset - 6, base + 7 * offset)
  | .customRange => (expStart, expEnd)

/-- app.py lines 197-198: `mask = (df['Date'] >= start_date) & (df['Date'] <= end_date)`,
`filtered_df = df.loc[mask]`. -/
def filteredRecords (records : List Record) (s e : Int) : List Record :=
  records.filter (fun r => s ≤ r.date ∧ r.date ≤ e)

/-- app.py line 201: `total_in = filtered_df[filtered_df['Type'].isin(["Food (In)", "Alcohol (In)"])]['Calories'].sum()`. -/
def total_in (records : List Record) (s e : Int) : Int :=
  (((filteredRecords records s e).filter
      (fun r => r.type = "Food (In)" ∨ r.type = "Alcohol (In)")).map Record.calories).sum

/-- app.py line 202: `total_exercise = filtered_df[filtered_df['Type'] == "Exercise (Out)"]['Calories'].sum()`. -/
def total_exercise (records : List Record) (s e : Int) : Int :=
  (((filteredRecords records s e).filter (fun r => r.type = "Exercise (Out)")).map
      Record.calories).sum

/-- app.py line 203: `num_days = (end_date - start_date).days + 1`. -/
def num_days (s e : Int) : Int := (e - s) + 1

/-- app.py line 204: `total_bmr = num_days * DAILY_BMR`. -/
def total_bmr (s e : Int) : Int := num_days s e * DAILY_BMR

/-- app.py line 205: `total_out = total_exercise + total_bmr`. -/
def total_out (records : List Record) (s e : Int) : Int :=
  total_exercise records s e + total_bmr s e

/-- app.py line 206: `net_calories = total_in - total_out`. -/
def net_calories (records : List Record) (s e : Int) : Int :=
  total_in records s e - total_out records s e

/-- app.py line 220: `all_dates = pd.date_range(start_date, end_date).date`:
every calendar date from `s` to `e` inclusive, in chronological order
(empty when `e < s`). -/
def all_dates (s e : Int) : List Int :=
  (List.range (num_days s e).toNat).map (fun (i : Nat) => s + (i : Int))

/-- The calorie total of one (date, type) cell of
`daily_stats = filtered_df.groupby(['Date', 'Type'])['Calories'].sum()`
(app.py line 219), with the absent-cell value 0 that the left merge +
`fillna(0)` of `get_values` produces. -/
def dailyTypeSum (records : List Record) (s e : Int) (t : String) (d : Int) : Int :=
  (((filteredRecords records s e).filter (fun r => r.date = d ∧ r.type = t)).map
      Record.calories).sum

/-- app.py lines 222-225: `get_values(type_name)` left-merges `all_dates`
with the grouped sums for that type and fills missing dates with 0, so entry
`i` is the summed calories of type `t` on date `s + i` (0 when that date has
no matching rows). -/
def get_values (records : List Record) (s e : Int) (t : String) : List Int :=
  (all_dates s e).map (dailyTypeSum records s e t)

/-- app.py line 229: `y_bmr = [DAILY_BMR] * len(all_dates)`. -/
def y_bmr (s e : Int) : List Int :=
  List.replicate (all_dates s e).length DAILY_BMR

/-- app.py lines 150-152 followed by lines 200-206: when the loaded history
is empty the page stops (`st.stop()`) with a warning before any metric is
computed; otherwise the three headline metrics
`(total_in, total_out, net_calories)` are produced for the resolved window. -/
def pageMetrics (records : List Record) (s e : Int) : Option (Int × Int × Int) :=
  if records.isEmpty then none
  else some (total_in records s e, total_out records s e, net_calories records s e)

/-- Modelled from the spec: `estimated_weight_delta_lbs = (total_burn −
total_intake) / 3500` (spec section 4.2 step 8).  The revision of the app in
src/app.py computes `total_in`, `total_out` and `net_calories` but no weight
delta; the spec attributes this derivation to the aggregation engine, so it
is modelled here from the spec's formula on top of the source-translated
totals. -/
def estimated_weight_delta_lbs (records : List Record) (s e : Int) : ℚ :=
  ((total_out records s e - total_in records s e : Int) : ℚ) / 3500

/-- app.py lines 30-49: the fixed `STARTER_DB` name-to-calorie table. -/
def STARTER_DB : List (String × Int) :=
  [("Chicken Breast (4oz)", 165),
   ("Rice (1 cup)", 200),
   ("Eggs (2 large)", 140),
   ("Oatmeal (1 cup)", 150),
   ("Pizza (1 slice)", 285),
   ("Burger", 500),
   ("Fries (Medium)", 365),
   ("Salad (Caesar)", 400),
   ("Salmon (Fillet)", 350),
   ("Pasta (1 cup)", 220),
   ("Beer (1 pint)", 180),
   ("Wine (Glass)", 125),
   ("Whiskey (shot)", 105),
   ("Protein Shake", 160),
   ("Banana", 105),
   ("Apple", 95),
   ("Avocado (Half)", 160),
   ("Tacos (2 street)", 300)]

/-- One Python dict insertion `m[kv.1] = kv.2`, as its effect on lookups. -/
def dictInsert [DecidableEq κ] (m : κ → Option ν) (kv : κ × ν) : κ → Option ν :=
  fun k => if k = kv.1 then some kv.2 else m k

/-- A Python dict built by inserting the pairs of `l` in order: looking up a
key returns the value of the last pair of `l` carrying that key. -/
def dictOf [DecidableEq κ] (l : List (κ × ν)) : κ → Option ν :=
  l.foldl dictInsert (fun _ => none)

/-- app.py line 94: `hist_df = df[df['Type'].isin(['Food (In)', 'Alcohol (In)'])]`. -/
def historyRows (records : List Record) : List Record :=
  records.filter (fun r => r.type = "Food (In)" ∨ r.type = "Alcohol (In)")

/-- app.py lines 95-96: `history_items[f"..."] = row['Calories']` keyed by the
item name with the literal suffix `" (Hist)"` appended. -/
def historyItems (records : List Record) : List (String × Int) :=
  (historyRows records).map (fun r => (r.item ++ " (Hist)", r.calories))

/-- app.py line 99: `full_db = {**STARTER_DB, **history_items}` — the starter
entries are inserted first, then the history entries (which would overwrite
on a key collision). -/
def full_db (records : List Record) : String → Option Int :=
  dictOf (STARTER_DB ++ historyItems records)

/-- The keys of `full_db` in Python dict order: starter keys first, then the
first occurrence of each new history key. -/
def full_db_keys (records : List Record) : List String :=
  ((STARTER_DB ++ historyItems records).map Prod.fst).dedup

/-- app.py line 102: `sorted_options = sorted(list(full_db.keys()))`. -/
def sorted_options (records : List Record) : List String :=
  List.insertionSort (fun a b => a ≤ b) (full_db_keys records)

/-- The calorie value of the last-logged food/alcohol record with the given
description, when any exists (the value the history dict ends up holding for
that description, since later insertions overwrite earlier ones). -/
def lastLoggedCal (records : List Record) (desc : String) : Option Int :=
  (((historyRows records).filter (fun r => r.item = desc)).map Record.calories).getLast?

/-- The distinct dates of the history in ascending order — the index of
`df.groupby('Date')` (app.py line 291). -/
def historyDates (records : List Record) : List Int :=
  List.insertionSort (fun a b => a ≤ b) ((records.map Record.date).dedup)

/-- `Alcohol_Cals` of one grouped row (app.py line 293): summed calories of
the alcohol records on date `d`. -/
def alcohol_cals (records : List Record) (d : Int) : Int :=
  ((records.filter (fun r => r.date = d ∧ r.type = "Alcohol (In)")).map Record.calories).sum

/-- `Exercise_Cals` of one grouped row (app.py line 294): summed calories of
the exercise records on date `d`. -/
def exercise_cals (records : List Record) (d : Int) : Int :=
  ((records.filter (fun r => r.date = d ∧ r.type = "Exercise (Out)")).map Record.calories).sum

/-- app.py lines 291-296: `daily_agg` — one row per distinct date of the
whole history, ascending, holding that date's alcohol and exercise totals. -/
def daily_agg (records : List Record) : List (Int × Int × Int) :=
  (historyDates records).map (fun d => (d, alcohol_cals records d, exercise_cals records d))

/-- app.py line 299: `daily_agg['Prev_Day_Alcohol'] = daily_agg['Alcohol_Cals'].shift(1).fillna(0)`
— each row of `daily_agg` paired with the alcohol total of the PREVIOUS ROW
of the grouped frame (0 for the first row). -/
def hangover_rows (records : List Record) : List ((Int × Int × Int) × Int) :=
  (daily_agg records).zip (0 :: (daily_agg records).map (fun p => p.2.1))

/-- app.py lines 300-303, the "After Drinking" group: exercise totals of the
rows whose `Prev_Day_Alcohol` is positive. -/
def after_drinking (records : List Record) : List Int :=
  ((hangover_rows records).filter (fun p => 0 < p.2)).map (fun p => p.1.2.2)

/-- app.py lines 300-303, the "After Sober" group: exercise totals of the
rows whose `Prev_Day_Alcohol` is not positive. -/
def after_sober (records : List Record) : List Int :=
  ((hangover_rows records).filter (fun p => ¬ 0 < p.2)).map (fun p => p.1.2.2)

/-- The mean reported per cohort (app.py line 303,
`groupby('Condition')['Exercise_Cals'].mean()`). -/
def meanQ (l : List Int) : ℚ := (l.sum : ℚ) / (l.length : ℚ)

/-- The persistent UI state of app.py lines 18-21: the stored view mode and
pagination offset in `st.session_state`. -/
structure UIState where
  mode : ViewMode
  offset : Int
deriving DecidableEq

/-- One user interaction with the view controls: picking a value in the
view-mode radio (app.py lines 157-160) or clicking the Previous/Next
pagination buttons (app.py lines 186-192). -/
inductive UIEvent
  | selectMode (m : ViewMode)
  | prevClick
  | nextClick
deriving DecidableEq

/-- app.py lines 157-192 as a state transition: a radio selection different
from the stored mode resets the offset to 0 and stores the new mode; the
pagination buttons (rendered only outside custom mode) decrement/increment
the offset. -/
def step (s : UIState) : UIEvent → UIState
  | .selectMode m => if m ≠ s.mode then ⟨m, 0⟩ else s
  | .prevClick => if s.mode ≠ .customRange then ⟨s.mode, s.offset - 1⟩ else s
  | .nextClick => if s.mode ≠ .customRange then ⟨s.mode, s.offset + 1⟩ else s

/-- The display label of app.py line 365, `f"{r['Date']} {r['Time']} - {r['Item']}"`,
modelled as the (date, time, item) triple it renders. -/
def delLabel (r : Record) : Int × String × String := (r.date, r.time, r.item)

/-- app.py line 364: `last_10 = df.tail(10)` together with the dataframe
index — the last (up to) 10 records, each paired with its append-order
index, ascending. -/
def last10 (df : List Record) : List (Nat × Record) :=
  df.enum.drop (df.length - 10)

/-- app.py lines 364-365: `last_10.sort_index(ascending=False)` reverses the
tail, and the dict comprehension `{label: idx ...}` inserts the pairs in that
descending order, a later (smaller-index) duplicate label overwriting an
earlier one. -/
def del_options (df : List Record) : (Int × String × String) → Option Nat :=
  dictOf ((last10 df).reverse.map (fun p => (delLabel p.2, p.1)))

/-- `sheet.delete_rows(n)` on a worksheet whose 1-based row 1 is the header
and whose data rows follow in append order: removes the n-th row. -/
def delete_rows (rows : List α) (n : Nat) : List α := rows.eraseIdx (n - 1)

/-- Claim C1: for every record list and every window with `start_date ≤
end_date`, the aggregation satisfies exactly `net_balance = total_intake -
total_exercise_burn - total_basal_burn`, with `total_basal_burn =
daily_basal_rate * num_days`, `num_days = (end - start).days + 1`, the intake
and exercise totals summing the calories of the filtered records of the
corresponding categories, and the filter keeping exactly the records whose
date lies in `[start_date, end_date]` inclusive. -/
theorem net_balance_conservation (records : List Record) (s e : Int) (h : s ≤ e) :
    net_calories records s e
        = total_in records s e - total_exercise records s e - total_bmr s e
      ∧ total_bmr s e = DAILY_BMR * num_days s e
      ∧ num_days s e = (e - s) + 1
      ∧ total_in records s e
          = (((filteredRecords records s e).filter
              (fun r => r.type = "Food (In)" ∨ r.type = "Alcohol (In)")).map
                Record.calories).sum
      ∧ total_exercise records s e
          = (((filteredRecords records s e).filter
              (fun r => r.type = "Exercise (Out)")).map Record.calories).sum
      ∧ ∀ r : Record, r ∈ filteredRecords records s e ↔
          r ∈ records ∧ (s ≤ r.date ∧ r.date ≤ e) := by
  refine ⟨?_, ?_, rfl, rfl, rfl, ?_⟩
  · simp only [net_calories, total_out]
    ring
  · simp only [total_bmr]
    ring
  · intro r
    simp [filteredRecords, List.mem_filter]

/-- Witness for C1 at the empty record list and the single-day window
`[0, 0]`. -/
theorem net_balance_conservation_witness :
    (0 : Int) ≤ 0
      ∧ (net_calories [] 0 0
            = total_in [] 0 0 - total_exercise [] 0 0 - total_bmr 0 0
          ∧ total_bmr 0 0 = DAILY_BMR * num_days 0 0
          ∧ num_days 0 0 = ((0 : Int) - 0) + 1
          ∧ total_in [] 0 0
              = (((filteredRecords [] 0 0).filter
                  (fun r => r.type = "Food (In)" ∨ r.type = "Alcohol (In)")).map
                    Record.calories).sum
          ∧ total_exercise [] 0 0
              = (((filteredRecords [] 0 0).filter
                  (fun r => r.type = "Exercise (Out)")).map Record.calories).sum
          ∧ ∀ r : Record, r ∈ filteredRecords [] 0 0 ↔
              r ∈ ([] : List Record) ∧ ((0 : Int) ≤ r.date ∧ r.date ≤ 0)) :=
  ⟨by decide, net_balance_conservation [] 0 0 (by decide)⟩

/-- Claim C3: in Single (Today) mode the window is the single day `today +
offset`; in Week mode it is the trailing 7-day inclusive window ending on
`today + 7 * offset`; in Custom mode the explicit bounds are used verbatim;
and the two concrete instances for today = 2024-03-15 hold. -/
theorem window_resolution_modes (offset base expS expE : Int) :
    resolveWindow .today offset base expS expE = (base + offset, base + offset)
      ∧ (resolveWindow .weekView offset base expS expE).2 = base + 7 * offset
      ∧ (resolveWindow .weekView offset base expS expE).1
          = (resolveWindow .weekView offset base expS expE).2 - 6
      ∧ resolveWindow .customRange offset base expS expE = (expS, expE)
      ∧ resolveWindow .today 0 (daysFromCivil 2024 3 15) 0 0
          = (daysFromCivil 2024 3 15, daysFromCivil 2024 3 15)
      ∧ resolveWindow .weekView 0 (daysFromCivil 2024 3 15) 0 0
          = (daysFromCivil 2024 3 9, daysFromCivil 2024 3 15) := by
  refine ⟨rfl, rfl, rfl, rfl, by decide, by decide⟩

/-- Claim C4: the estimated weight delta (modelled from the spec on top of
the source-translated totals) satisfies `3500 * delta = total_burn -
total_intake`, and the 500 kcal food + 300 kcal exercise single-day scenario
yields intake 500, burn 2700, net -2200 and a positive delta within 1/1000
of 0.629. -/
theorem weight_delta_formula_scenario :
    (∀ (records : List Record) (s e : Int),
        3500 * estimated_weight_delta_lbs records s e
          = ((total_out records s e - total_in records s e : Int) : ℚ))
      ∧ total_in
          [⟨daysFromCivil 2024 3 15, "12:00:00", "Food (In)", "Lunch", 500⟩,
           ⟨daysFromCivil 2024 3 15, "18:00:00", "Exercise (Out)", "Run", 300⟩]
          (daysFromCivil 2024 3 15) (daysFromCivil 2024 3 15) = 500
      ∧ total_out
          [⟨daysFromCivil 2024 3 15, "12:00:00", "Food (In)", "Lunch", 500⟩,
           ⟨daysFromCivil 2024 3 15, "18:00:00", "Exercise (Out)", "Run", 300⟩]
          (daysFromCivil 2024 3 15) (daysFromCivil 2024 3 15) = 2700
      ∧ net_calories
          [⟨daysFromCivil 2024 3 15, "12:00:00", "Food (In)", "Lunch", 500⟩,
           ⟨daysFromCivil 2024 3 15, "18:00:00", "Exercise (Out)", "Run", 300⟩]
          (daysFromCivil 2024 3 15) (daysFromCivil 2024 3 15) = -2200
      ∧ 0 < estimated_weight_delta_lbs
          [⟨daysFromCivil 2024 3 15, "12:00:00", "Food (In)", "Lunch", 500⟩,
           ⟨daysFromCivil 2024 3 15, "18:00:00", "Exercise (Out)", "Run", 300⟩]
          (daysFromCivil 2024 3 15) (daysFromCivil 2024 3 15)
      ∧ |estimated_weight_delta_lbs
          [⟨daysFromCivil 2024 3 15, "12:00:00", "Food (In)", "Lunch", 500⟩,
           ⟨daysFromCivil 2024 3 15, "18:00:00", "Exercise (Out)", "Run", 300⟩]
          (daysFromCivil 2024 3 15) (daysFromCivil 2024 3 15) - 629 / 1000|
        < 1 / 1000 := by
  have hout : total_out
      [⟨daysFromCivil 2024 3 15, "12:00:00", "Food (In)", "Lunch", 500⟩,
       ⟨daysFromCivil 2024 3 15, "18:00:00", "Exercise (Out)", "Run", 300⟩]
      (daysFromCivil 2024 3 15) (daysFromCivil 2024 3 15) = 2700 := by decide
  have hin : total_in
      [⟨daysFromCivil 2024 3 15, "12:00:00", "Food (In)", "Lunch", 500⟩,
       ⟨daysFromCivil 2024 3 15, "18:00:00", "Exercise (Out)", "Run", 300⟩]
      (daysFromCivil 2024 3 15) (daysFromCivil 2024 3 15) = 500 := by decide
  refine ⟨fun records s e => ?_, hin, hout, by decide, ?_, ?_⟩
  · rw [estimated_weight_delta_lbs]
    field_simp
  · rw [estimated_weight_delta_lbs, hout, hin]
    norm_num
  · rw [estimated_weight_delta_lbs, hout, hin]
    rw [abs_sub_lt_iff]
    norm_num

/-- Claim C6 is refuted: the code performs no validation of the custom
range.  With end = 2024-03-14 before start = 2024-03-15 the resolver returns
the window verbatim (no failure of any kind exists on this path) and the
metric computation still runs, producing concrete metric values. -/
theorem custom_range_counterexample :
    resolveWindow .customRange 0 (daysFromCivil 2024 3 15)
        (daysFromCivil 2024 3 15) (daysFromCivil 2024 3 14)
      = (daysFromCivil 2024 3 15, daysFromCivil 2024 3 14)
      ∧ pageMetrics
          [⟨daysFromCivil 2024 3 15, "12:00:00", "Food (In)", "Lunch", 500⟩]
          (daysFromCivil 2024 3 15) (daysFromCivil 2024 3 14)
        = some (0, 0, 0) := by
  exact ⟨by decide, by decide⟩

/-- Claim C6 as amended: a custom range whose end precedes its start is
accepted verbatim, no error is raised, and aggregation proceeds over it: the
filtered set is empty, `num_days = (end - start).days + 1 ≤ 0`, and the page
produces the metrics `(0, total_bmr, -total_bmr)`. -/
theorem custom_range_no_validation (records : List Record) (offset base s e : Int)
    (hne : records ≠ []) (h : e < s) :
    resolveWindow .customRange offset base s e = (s, e)
      ∧ filteredRecords records s e = []
      ∧ num_days s e ≤ 0
      ∧ pageMetrics records s e = some (0, total_bmr s e, -total_bmr s e) := by
  have hfe : filteredRecords records s e = [] := by
    rw [filteredRecords, List.filter_eq_nil_iff]
    intro r _
    simp only [decide_eq_true_eq, not_and]
    intro hs he
    omega
  have hin : total_in records s e = 0 := by
    rw [total_in, hfe]
    rfl
  have hex : total_exercise records s e = 0 := by
    rw [total_exercise, hfe]
    rfl
  refine ⟨rfl, hfe, by simp only [num_days]; omega, ?_⟩
  rw [pageMetrics, if_neg (by simpa [List.isEmpty_iff] using hne)]
  rw [net_calories, total_out, hin, hex]
  norm_num

/-- Witness for the amended C6 at a one-record history and the reversed
window `[1, 0]`. -/
theorem custom_range_no_validation_witness :
    ([⟨0, "12:00:00", "Food (In)", "Lunch", 500⟩] : List Record) ≠ []
      ∧ (0 : Int) < 1
      ∧ (resolveWindow .customRange 0 0 1 0 = (1, 0)
          ∧ filteredRecords [⟨0, "12:00:00", "Food (In)", "Lunch", 500⟩] 1 0 = []
          ∧ num_days 1 0 ≤ 0
          ∧ pageMetrics [⟨0, "12:00:00", "Food (In)", "Lunch", 500⟩] 1 0
              = some (0, total_bmr 1 0, -total_bmr 1 0)) :=
  ⟨by decide, by decide,
    custom_range_no_validation [⟨0, "12:00:00", "Food (In)", "Lunch", 500⟩] 0 0 1 0
      (by decide) (by decide)⟩

/-- Claim C7 is refuted on its headline case: with an empty record history
the page stops (app.py lines 150-152) before any aggregation, so no metrics
are returned for the 3-day window `[0, 2]` (or any other window). -/
theorem empty_history_counterexample : pageMetrics [] 0 2 = none := by decide

/-- Claim C7 as amended: with an empty history the page halts before
aggregating; when the history is non-empty but every record falls outside
the window, all category sums are 0, `net_balance = -total_basal_burn`, the
daily series is zero-filled for every date in range, and for a 3-day window
(rate 2400) the metrics are `(0, 7200, -7200)` with a 3-entry series. -/
theorem empty_filtered_aggregation (records : List Record) (s e : Int)
    (hne : records ≠ []) (h : s ≤ e)
    (hout : ∀ r ∈ records, r.date < s ∨ e < r.date) :
    total_in records s e = 0
      ∧ total_exercise records s e = 0
      ∧ net_calories records s e = -total_bmr s e
      ∧ (∀ t, get_values records s e t = List.replicate (num_days s e).toNat 0)
      ∧ (e = s + 2 →
          pageMetrics records s e = some (0, 7200, -7200)
            ∧ (all_dates s e).length = 3
            ∧ y_bmr s e = List.replicate 3 2400) := by
  have hfe : filteredRecords records s e = [] := by
    rw [filteredRecords, List.filter_eq_nil_iff]
    intro r hr
    simp only [decide_eq_true_eq, not_and]
    intro hs he
    rcases hout r hr with h1 | h1 <;> omega
  have hin : total_in records s e = 0 := by
    rw [total_in, hfe]
    rfl
  have hex : total_exercise records s e = 0 := by
    rw [total_exercise, hfe]
    rfl
  have hnet : net_calories records s e = -total_bmr s e := by
    rw [net_calories, total_out, hin, hex]
    ring
  have hgv : ∀ t, get_values records s e t = List.replicate (num_days s e).toNat 0 := by
    intro t
    rw [List.eq_replicate_iff]
    constructor
    · rw [get_values, List.length_map, all_dates, List.length_map, List.length_range]
    · intro b hb
      rcases List.mem_map.mp hb with ⟨d, _, rfl⟩
      rw [dailyTypeSum, hfe]
      rfl
  refine ⟨hin, hex, hnet, hgv, ?_⟩
  intro he3
  have hnd : num_days s e = 3 := by
    rw [num_days]
    omega
  have hbmr : total_bmr s e = 7200 := by
    rw [total_bmr, hnd]
    rfl
  refine ⟨?_, ?_, ?_⟩
  · rw [pageMetrics, if_neg (by simpa [List.isEmpty_iff] using hne)]
    rw [total_out, net_calories, total_out, hin, hex, hbmr]
    norm_num
  · rw [all_dates, List.length_map, List.length_range, hnd]
    rfl
  · rw [y_bmr]
    have hlen : (all_dates s e).length = 3 := by
      rw [all_dates, List.length_map, List.length_range, hnd]
      rfl
    rw [hlen]
    rfl

/-- Witness for the amended C7: one record dated outside the 3-day window
`[0, 2]`. -/
theorem empty_filtered_aggregation_witness :
    ([⟨100, "12:00:00", "Food (In)", "Lunch", 500⟩] : List Record) ≠ []
      ∧ (0 : Int) ≤ 2
      ∧ (∀ r ∈ ([⟨100, "12:00:00", "Food (In)", "Lunch", 500⟩] : List Record),
          r.date < 0 ∨ 2 < r.date)
      ∧ (total_in [⟨100, "12:00:00", "Food (In)", "Lunch", 500⟩] 0 2 = 0
          ∧ total_exercise [⟨100, "12:00:00", "Food (In)", "Lunch", 500⟩] 0 2 = 0
          ∧ net_calories [⟨100, "12:00:00", "Food (In)", "Lunch", 500⟩] 0 2
              = -total_bmr 0 2
          ∧ (∀ t, get_values [⟨100, "12:00:00", "Food (In)", "Lunch", 500⟩] 0 2 t
              = List.replicate (num_days 0 2).toNat 0)
          ∧ ((2 : Int) = 0 + 2 →
              pageMetrics [⟨100, "12:00:00", "Food (In)", "Lunch", 500⟩] 0 2
                  = some (0, 7200, -7200)
                ∧ (all_dates 0 2).length = 3
                ∧ y_bmr 0 2 = List.replicate 3 2400)) :=
  ⟨by decide, by decide, by decide,
    empty_filtered_aggregation [⟨100, "12:00:00", "Food (In)", "Lunch", 500⟩] 0 2
      (by decide) (by decide) (by decide)⟩

/-- Claim C8: whenever a view-control interaction changes the stored mode,
the stored offset of the resulting state is 0; in particular selecting any
mode different from the current one yields exactly the state with the new
mode and offset 0, for every starting offset. -/
theorem mode_switch_resets_offset (s : UIState) (ev : UIEvent) :
    ((step s ev).mode ≠ s.mode → (step s ev).offset = 0)
      ∧ ∀ m : ViewMode, m ≠ s.mode → step s (.selectMode m) = ⟨m, 0⟩ := by
  constructor
  · intro h
    cases ev with
    | selectMode m =>
      by_cases hm : m = s.mode
      · rw [step, if_neg (by simp [hm])] at h
        exact absurd rfl h
      · rw [step, if_pos (by simp [hm])]
    | prevClick =>
      exfalso
      apply h
      rw [step]
      split <;> rfl
    | nextClick =>
      exfalso
      apply h
      rw [step]
      split <;> rfl
  · intro m hm
    rw [step, if_pos (by simp [hm])]

/-- Claim C2: for a window with `start ≤ end` the per-day chart series has
exactly `num_days` entries, entry `i` belonging to calendar date `start + i`
(so the dates are in chronological order and cover the window); a date with
no records contributes 0 to the food, alcohol and exercise series, and every
date contributes the daily basal rate to the BMR series. -/
theorem daily_series_zero_fill (records : List Record) (s e : Int) (h : s ≤ e) :
    (all_dates s e).length = (num_days s e).toNat
      ∧ 1 ≤ num_days s e
      ∧ (∀ (i : Nat) (hi : i < (all_dates s e).length),
          (all_dates s e).get ⟨i, hi⟩ = s + (i : Int))
      ∧ (∀ t, (get_values records s e t).length = (all_dates s e).length)
      ∧ (∀ t (i : Nat) (hi : i < (get_values records s e t).length),
          (∀ r ∈ records, r.date ≠ s + (i : Int)) →
            (get_values records s e t).get ⟨i, hi⟩ = 0)
      ∧ (∀ (i : Nat) (hi : i < (y_bmr s e).length),
          (y_bmr s e).get ⟨i, hi⟩ = DAILY_BMR) := by
  refine ⟨?_, ?_, ?_, ?_, ?_, ?_⟩
  · rw [all_dates, List.length_map, List.length_range]
  · rw [num_days]
    omega
  · intro i hi
    simp [all_dates]
  · intro t
    rw [get_values, List.length_map]
  · intro t i hi hno
    have hzv : dailyTypeSum records s e t (s + (i : Int)) = 0 := by
      rw [dailyTypeSum]
      have hnil : (filteredRecords records s e).filter
          (fun r => r.date = s + (i : Int) ∧ r.type = t) = [] := by
        rw [List.filter_eq_nil_iff]
        intro r hr
        rw [filteredRecords] at hr
        simp only [decide_eq_true_eq]
        intro hab
        exact hno r (List.mem_of_mem_filter hr) hab.1
      rw [hnil]
      rfl
    have hmap : (get_values records s e t).get ⟨i, hi⟩
        = dailyTypeSum records s e t (s + (i : Int)) := by
      simp [get_values, all_dates]
    rw [hmap, hzv]
  · intro i hi
    simp [y_bmr]

/-- Witness for C2 at the empty record list and the 3-day window `[0, 2]`. -/
theorem daily_series_zero_fill_witness :
    (0 : Int) ≤ 2
      ∧ ((all_dates 0 2).length = (num_days 0 2).toNat
          ∧ 1 ≤ num_days 0 2
          ∧ (∀ (i : Nat) (hi : i < (all_dates 0 2).length),
              (all_dates 0 2).get ⟨i, hi⟩ = 0 + (i : Int))
          ∧ (∀ t, (get_values [] 0 2 t).length = (all_dates 0 2).length)
          ∧ (∀ t (i : Nat) (hi : i < (get_values [] 0 2 t).length),
              (∀ r ∈ ([] : List Record), r.date ≠ 0 + (i : Int)) →
                (get_values [] 0 2 t).get ⟨i, hi⟩ = 0)
          ∧ (∀ (i : Nat) (hi : i < (y_bmr 0 2).length),
              (y_bmr 0 2).get ⟨i, hi⟩ = DAILY_BMR)) :=
  ⟨by decide, daily_series_zero_fill [] 0 2 (by decide)⟩

/-- Claim C5 is contradicted by the code on histories with a calendar gap:
`shift(1)` pairs each grouped row with the alcohol total of the previous ROW
of the grouped frame, not of the previous calendar date (despite the code's
own "Yesterday's Alcohol" comment).  With alcohol on 2024-01-01, nothing on
2024-01-02 and exercise on 2024-01-03, the code places 2024-01-03 in the
post-drinking cohort even though the previous calendar day has zero alcohol.
On the claim's gap-free three-consecutive-day fixture the row shift and the
calendar shift agree, and the code yields the claimed cohorts and mean. -/
theorem hangover_shift_gap_eval :
    after_drinking
        [⟨daysFromCivil 2024 1 1, "21:00:00", "Alcohol (In)", "Wine", 200⟩,
         ⟨daysFromCivil 2024 1 3, "08:00:00", "Exercise (Out)", "Run", 400⟩]
      = [400]
      ∧ after_sober
          [⟨daysFromCivil 2024 1 1, "21:00:00", "Alcohol (In)", "Wine", 200⟩,
           ⟨daysFromCivil 2024 1 3, "08:00:00", "Exercise (Out)", "Run", 400⟩]
        = [0]
      ∧ alcohol_cals
          [⟨daysFromCivil 2024 1 1, "21:00:00", "Alcohol (In)", "Wine", 200⟩,
           ⟨daysFromCivil 2024 1 3, "08:00:00", "Exercise (Out)", "Run", 400⟩]
          (daysFromCivil 2024 1 2) = 0
      ∧ after_drinking
          [⟨daysFromCivil 2024 1 1, "21:00:00", "Alcohol (In)", "Wine", 200⟩,
           ⟨daysFromCivil 2024 1 2, "08:00:00", "Exercise (Out)", "Run", 400⟩,
           ⟨daysFromCivil 2024 1 3, "21:00:00", "Alcohol (In)", "Wine", 200⟩]
        = [400]
      ∧ after_sober
          [⟨daysFromCivil 2024 1 1, "21:00:00", "Alcohol (In)", "Wine", 200⟩,
           ⟨daysFromCivil 2024 1 2, "08:00:00", "Exercise (Out)", "Run", 400⟩,
           ⟨daysFromCivil 2024 1 3, "21:00:00", "Alcohol (In)", "Wine", 200⟩]
        = [0, 0]
      ∧ meanQ (after_drinking
          [⟨daysFromCivil 2024 1 1, "21:00:00", "Alcohol (In)", "Wine", 200⟩,
           ⟨daysFromCivil 2024 1 2, "08:00:00", "Exercise (Out)", "Run", 400⟩,
           ⟨daysFromCivil 2024 1 3, "21:00:00", "Alcohol (In)", "Wine", 200⟩])
        = 400 := by
  have hfix : after_drinking
      [⟨daysFromCivil 2024 1 1, "21:00:00", "Alcohol (In)", "Wine", 200⟩,
       ⟨daysFromCivil 2024 1 2, "08:00:00", "Exercise (Out)", "Run", 400⟩,
       ⟨daysFromCivil 2024 1 3, "21:00:00", "Alcohol (In)", "Wine", 200⟩]
      = [400] := by decide
  refine ⟨by decide, by decide, by decide, hfix, by decide, ?_⟩
  rw [hfix]
  simp [meanQ]

/-- Claim C9 is refuted on precedence: history keys carry the literal
`" (Hist)"` suffix (app.py line 96), so a name logged in history never
collides with the built-in table, and looking up the bare name still returns
the built-in value.  With "Burger" logged at 600 kcal, the merged dict maps
"Burger" to the starter value 500 and only the separate label
"Burger (Hist)" to 600. -/
theorem quick_add_counterexample :
    full_db [⟨0, "12:00:00", "Food (In)", "Burger", 600⟩] "Burger" = some 500
      ∧ full_db [⟨0, "12:00:00", "Food (In)", "Burger", 600⟩] "Burger (Hist)" = some 600
      ∧ (500 : Int) ≠ 600 :=
  ⟨by decide, by decide, by decide⟩

/-- Witness for C8: switching from Today (offset 5) to Week View resets the
offset to 0. -/
theorem mode_switch_resets_offset_witness :
    (step ⟨.today, 5⟩ (.selectMode .weekView)).offset = 0
      ∧ step ⟨.today, 5⟩ (.selectMode .weekView) = ⟨.weekView, 0⟩ :=
  ⟨(mode_switch_resets_offset ⟨.today, 5⟩ (.selectMode .weekView)).1 (by decide),
    (mode_switch_resets_offset ⟨.today, 5⟩ (.selectMode .weekView)).2 .weekView (by decide)⟩

/-- Right cancellation of string concatenation. -/
theorem string_append_cancel (s t u : String) (h : s ++ u = t ++ u) : s = t := by
  have h2 := congrArg String.data h
  simp only [String.data_append] at h2
  exact String.ext (List.append_cancel_right h2)

/-- Folding dict insertions of `l` over an arbitrary dict `m`: the lookup is
the last binding of `l` for the key when one exists, the old lookup
otherwise. -/
theorem dictOf_foldl_or [DecidableEq κ] (l : List (κ × ν)) (m : κ → Option ν) (k : κ) :
    l.foldl dictInsert m k = (dictOf l k).or (m k) := by
  induction l generalizing m with
  | nil => simp [dictOf]
  | cons kv t ih =>
    rw [List.foldl_cons, ih]
    have hd : dictOf (kv :: t) k = (dictOf t k).or (dictInsert (fun _ => none) kv k) := by
      rw [dictOf, List.foldl_cons, ih]
    rw [hd]
    cases hdt : dictOf t k with
    | some v => rfl
    | none =>
      simp only [Option.none_or]
      rw [dictInsert, dictInsert]
      by_cases hk : k = kv.1
      · simp [hk]
      · simp [hk]

/-- Python dict-merge semantics: in `dictOf (l1 ++ l2)` the bindings of `l2`
take precedence over those of `l1`. -/
theorem dictOf_append_or [DecidableEq κ] (l1 l2 : List (κ × ν)) (k : κ) :
    dictOf (l1 ++ l2) k = (dictOf l2 k).or (dictOf l1 k) := by
  rw [dictOf, List.foldl_append]
  exact dictOf_foldl_or l2 _ k

/-- Looking up `k` in a dict built from `l` returns the value of the LAST
pair of `l` whose key is `k` (repeated insertions overwrite). -/
theorem dictOf_eq_getLast [DecidableEq κ] (l : List (κ × ν)) (k : κ) :
    dictOf l k = ((l.filter (fun kv => k = kv.1)).getLast?).map Prod.snd := by
  induction l using List.reverseRecOn with
  | nil => simp [dictOf]
  | append_singleton t a ih =>
    rw [dictOf_append_or, List.filter_append, List.getLast?_append]
    by_cases hk : k = a.1
    · have h1 : dictOf [a] k = some a.2 := by
        simp [dictOf, dictInsert, hk]
      have h2 : List.filter (fun kv => k = kv.1) [a] = [a] := by
        simp [hk]
      rw [h1, h2]
      rfl
    · have h1 : dictOf [a] k = none := by
        simp [dictOf, dictInsert, hk]
      have h2 : List.filter (fun kv => k = kv.1) [a] = [] := by
        simp [hk]
      rw [h1, h2]
      simp [ih]

/-- Claim C9 as amended: history items enter the quick-add index under their
description with the literal `" (Hist)"` suffix appended, mapped to the
last-logged calorie value of that description; because of the suffix a
history label never replaces a built-in label (the bare built-in name keeps
the built-in value, as the refutation shows concretely), and the option
labels are presented sorted alphabetically (a sorted permutation of the
merged dict's keys). -/
theorem quick_add_hist_suffix (records : List Record) (desc : String) (c : Int)
    (h : lastLoggedCal records desc = some c) :
    full_db records (desc ++ " (Hist)") = some c
      ∧ List.Sorted (fun a b => a ≤ b) (sorted_options records)
      ∧ (sorted_options records).Perm (full_db_keys records) := by
  refine ⟨?_, List.sorted_insertionSort _ _, List.perm_insertionSort _ _⟩
  rw [full_db, dictOf_append_or]
  have hcg : List.filter (fun kv => desc ++ " (Hist)" = kv.1)
        (List.map (fun r => (r.item ++ " (Hist)", r.calories)) (historyRows records))
      = List.map (fun r => (r.item ++ " (Hist)", r.calories))
          (List.filter (fun r => r.item = desc) (historyRows records)) := by
    rw [List.filter_map]
    refine congrArg _ (List.filter_congr ?_)
    intro r _
    simp only [Function.comp_apply]
    rw [decide_eq_decide]
    constructor
    · intro hq
      exact (string_append_cancel desc r.item " (Hist)" hq).symm
    · intro hq
      rw [hq]
  have hh : dictOf (historyItems records) (desc ++ " (Hist)") = some c := by
    rw [dictOf_eq_getLast, historyItems, hcg, List.getLast?_map]
    rw [lastLoggedCal, List.getLast?_map] at h
    rw [Option.map_map]
    exact h
  rw [hh]
  rfl

/-- Witness for the amended C9: "Burger" logged once at 600 kcal. -/
theorem quick_add_hist_suffix_witness :
    lastLoggedCal [⟨0, "12:00:00", "Food (In)", "Burger", 600⟩] "Burger" = some 600
      ∧ (full_db [⟨0, "12:00:00", "Food (In)", "Burger", 600⟩] ("Burger" ++ " (Hist)")
            = some 600
          ∧ List.Sorted (fun a b => a ≤ b)
              (sorted_options [⟨0, "12:00:00", "Food (In)", "Burger", 600⟩])
          ∧ (sorted_options [⟨0, "12:00:00", "Food (In)", "Burger", 600⟩]).Perm
              (full_db_keys [⟨0, "12:00:00", "Food (In)", "Burger", 600⟩])) :=
  ⟨by decide,
    quick_add_hist_suffix [⟨0, "12:00:00", "Food (In)", "Burger", 600⟩] "Burger" 600
      (by decide)⟩

/-- The deletion dict resolves a label to the head of the matching entries
of the ascending tail — i.e. to the smallest matching index — because the
dict is built in descending index order and later insertions overwrite. -/
theorem del_options_eq_head (df : List Record) (lbl : Int × String × String) :
    del_options df lbl
      = (((last10 df).filter (fun p => lbl = delLabel p.2)).head?).map Prod.fst := by
  rw [del_options, dictOf_eq_getLast]
  have hcg : List.filter (fun kv => lbl = kv.1)
        (List.map (fun p => (delLabel p.2, p.1)) (last10 df).reverse)
      = List.map (fun p => (delLabel p.2, p.1))
          (List.filter (fun p => lbl = delLabel p.2) (last10 df).reverse) := by
    rw [List.filter_map]
    refine congrArg _ (List.filter_congr ?_)
    intro p _
    rfl
  rw [hcg, List.getLast?_map, Option.map_map, List.filter_reverse, List.getLast?_reverse]
  rfl

/-- The enum indices in the deletion tail are strictly increasing. -/
theorem last10_pairwise (df : List Record) :
    List.Pairwise (fun a b => a.1 < b.1) (last10 df) := by
  have hr := List.pairwise_lt_range df.length
  rw [← List.enum_map_fst] at hr
  have he := List.pairwise_map.mp hr
  exact List.Pairwise.sublist (List.drop_sublist _ _) he

/-- Membership in the deletion tail: exactly the records whose append-order
index is among the last (up to) 10, paired with that index. -/
theorem last10_mem_iff (df : List Record) (j : Nat) (r : Record) :
    (j, r) ∈ last10 df ↔
      (df.length - 10 ≤ j ∧ ∃ hj : j < df.length, df.get ⟨j, hj⟩ = r) := by
  rw [last10]
  constructor
  · intro hm
    rcases List.mem_iff_getElem.mp hm with ⟨n, hn, hval⟩
    have hn2 : df.length - 10 + n < df.length := by
      rw [List.length_drop, List.enum_length] at hn
      omega
    have hn3 : df.length - 10 + n < df.enum.length := by
      rw [List.enum_length]
      exact hn2
    rw [List.getElem_drop, List.getElem_enum] at hval
    have hj : j = df.length - 10 + n := (congrArg Prod.fst hval).symm
    have hr : df[df.length - 10 + n] = r := congrArg Prod.snd hval
    subst hj
    exact ⟨by omega, hn2, by rw [List.get_eq_getElem]; exact hr⟩
  · rintro ⟨hge, hj, hval⟩
    apply List.mem_iff_getElem.mpr
    have hlen : j - (df.length - 10) < (df.enum.drop (df.length - 10)).length := by
      rw [List.length_drop, List.enum_length]
      omega
    refine ⟨j - (df.length - 10), hlen, ?_⟩
    have hjj : df.length - 10 + (j - (df.length - 10)) = j := by omega
    rw [List.getElem_drop, List.getElem_enum]
    rw [List.get_eq_getElem] at hval
    simp only [hjj]
    rw [hval]

/-- Claim C10: the deletion interface offers the (at most) 10 most recently
appended records, keyed by the display label; when the chosen label is
resolved, the stored index is a tail index bearing that label, it is the
SMALLEST such index (duplicate labels collapse onto the earliest-appended of
the duplicates), and confirming deletes sheet row index + 2 — which, on a
sheet made of a header row followed by the records, removes exactly the
record at that append-order index. -/
theorem delete_options_spec (df : List Record) (lbl : Int × String × String) (i : Nat)
    (h : del_options df lbl = some i) :
    (last10 df).length ≤ 10
      ∧ (∀ (j : Nat) (r : Record), (j, r) ∈ last10 df ↔
          (df.length - 10 ≤ j ∧ ∃ hj : j < df.length, df.get ⟨j, hj⟩ = r))
      ∧ (∃ hi : i < df.length, df.length - 10 ≤ i ∧ delLabel (df.get ⟨i, hi⟩) = lbl)
      ∧ (∀ (j : Nat) (hj : j < df.length),
          df.length - 10 ≤ j → delLabel (df.get ⟨j, hj⟩) = lbl → i ≤ j)
      ∧ (∀ header : Record, delete_rows (header :: df) (i + 2) = header :: df.eraseIdx i)
      ∧ (df.eraseIdx i).length = df.length - 1 := by
  rw [del_options_eq_head] at h
  cases hc : (last10 df).filter (fun p => lbl = delLabel p.2) with
  | nil =>
    rw [hc] at h
    simp at h
  | cons p rest =>
    rw [hc] at h
    have hpi : p.1 = i := by
      simpa using h
    have hpf : p ∈ (last10 df).filter (fun p => lbl = delLabel p.2) := by
      rw [hc]
      exact List.mem_cons_self _ _
    have hpmem : p ∈ last10 df := List.mem_of_mem_filter hpf
    have hplbl : lbl = delLabel p.2 := by
      have := List.of_mem_filter hpf
      simpa using this
    have hpm2 : (p.1, p.2) ∈ last10 df := by
      rw [Prod.mk.eta]
      exact hpmem
    obtain ⟨hge, hjlt, hval⟩ := (last10_mem_iff df p.1 p.2).mp hpm2
    subst hpi
    have hmin : ∀ (j : Nat) (hj : j < df.length),
        df.length - 10 ≤ j → delLabel (df.get ⟨j, hj⟩) = lbl → p.1 ≤ j := by
      intro j hj hge10 hlbl
      have hjm : (j, df.get ⟨j, hj⟩) ∈ last10 df :=
        (last10_mem_iff df j (df.get ⟨j, hj⟩)).mpr ⟨hge10, hj, rfl⟩
      have hjf : (j, df.get ⟨j, hj⟩) ∈ (last10 df).filter (fun p => lbl = delLabel p.2) :=
        List.mem_filter.mpr ⟨hjm, by simpa using hlbl.symm⟩
      rw [hc] at hjf
      rcases List.mem_cons.mp hjf with heq | hmem
      · have : j = p.1 := congrArg Prod.fst heq
        omega
      · have hpw : List.Pairwise (fun a b => a.1 < b.1)
            ((last10 df).filter (fun p => lbl = delLabel p.2)) :=
          List.Pairwise.filter _ (last10_pairwise df)
        rw [hc] at hpw
        have := List.rel_of_pairwise_cons hpw hmem
        omega
    refine ⟨?_, fun j r => last10_mem_iff df j r, ⟨hjlt, hge, by rw [hval, ← hplbl]⟩,
        hmin, ?_, ?_⟩
    · rw [last10, List.length_drop, List.enum_length]
      omega
    · intro header
      rw [delete_rows]
      have h21 : p.1 + 2 - 1 = p.1 + 1 := by omega
      rw [h21, List.eraseIdx_cons_succ]
    · rw [List.length_eraseIdx, if_pos hjlt]

/-- Witness for C10: three records within the tail of 10, the first and
third sharing the display label `(5, "a", "x")`; the resolved index is 0,
the smaller of the two duplicate indices. -/
theorem delete_options_spec_witness :
    del_options
        [⟨5, "a", "Food (In)", "x", 100⟩, ⟨6, "b", "Food (In)", "y", 50⟩,
         ⟨5, "a", "Food (In)", "x", 150⟩]
        (5, "a", "x") = some 0
      ∧ ((last10
            [⟨5, "a", "Food (In)", "x", 100⟩, ⟨6, "b", "Food (In)", "y", 50⟩,
             ⟨5, "a", "Food (In)", "x", 150⟩]).length ≤ 10
          ∧ (∀ (j : Nat) (r : Record),
              (j, r) ∈ last10
                  [⟨5, "a", "Food (In)", "x", 100⟩, ⟨6, "b", "Food (In)", "y", 50⟩,
                   ⟨5, "a", "Food (In)", "x", 150⟩] ↔
                (([⟨5, "a", "Food (In)", "x", 100⟩, ⟨6, "b", "Food (In)", "y", 50⟩,
                   ⟨5, "a", "Food (In)", "x", 150⟩] : List Record).length - 10 ≤ j
                  ∧ ∃ hj : j < ([⟨5, "a", "Food (In)", "x", 100⟩,
                      ⟨6, "b", "Food (In)", "y", 50⟩,
                      ⟨5, "a", "Food (In)", "x", 150⟩] : List Record).length,
                    ([⟨5, "a", "Food (In)", "x", 100⟩, ⟨6, "b", "Food (In)", "y", 50⟩,
                      ⟨5, "a", "Food (In)", "x", 150⟩] : List Record).get ⟨j, hj⟩ = r))
          ∧ (∃ hi : 0 < ([⟨5, "a", "Food (In)", "x", 100⟩, ⟨6, "b", "Food (In)", "y", 50⟩,
                ⟨5, "a", "Food (In)", "x", 150⟩] : List Record).length,
              ([⟨5, "a", "Food (In)", "x", 100⟩, ⟨6, "b", "Food (In)", "y", 50⟩,
                ⟨5, "a", "Food (In)", "x", 150⟩] : List Record).length - 10 ≤ 0
                ∧ delLabel (([⟨5, "a", "Food (In)", "x", 100⟩,
                    ⟨6, "b", "Food (In)", "y", 50⟩,
                    ⟨5, "a", "Food (In)", "x", 150⟩] : List Record).get ⟨0, hi⟩)
                  = (5, "a", "x"))
          ∧ (∀ (j : Nat) (hj : j < ([⟨5, "a", "Food (In)", "x", 100⟩,
                ⟨6, "b", "Food (In)", "y", 50⟩,
                ⟨5, "a", "Food (In)", "x", 150⟩] : List Record).length),
              ([⟨5, "a", "Food (In)", "x", 100⟩, ⟨6, "b", "Food (In)", "y", 50⟩,
                ⟨5, "a", "Food (In)", "x", 150⟩] : List Record).length - 10 ≤ j →
                delLabel (([⟨5, "a", "Food (In)", "x", 100⟩,
                    ⟨6, "b", "Food (In)", "y", 50⟩,
                    ⟨5, "a", "Food (In)", "x", 150⟩] : List Record).get ⟨j, hj⟩)
                  = (5, "a", "x") → 0 ≤ j)
          ∧ (∀ header : Record,
              delete_rows (header :: [⟨5, "a", "Food (In)", "x", 100⟩,
                  ⟨6, "b", "Food (In)", "y", 50⟩, ⟨5, "a", "Food (In)", "x", 150⟩]) (0 + 2)
                = header :: ([⟨5, "a", "Food (In)", "x", 100⟩,
                    ⟨6, "b", "Food (In)", "y", 50⟩,
                    ⟨5, "a", "Food (In)", "x", 150⟩] : List Record).eraseIdx 0)
          ∧ (([⟨5, "a", "Food (In)", "x", 100⟩, ⟨6, "b", "Food (In)", "y", 50⟩,
              ⟨5, "a", "Food (In)", "x", 150⟩] : List Record).eraseIdx 0).length
            = ([⟨5, "a", "Food (In)", "x", 100⟩, ⟨6, "b", "Food (In)", "y", 50⟩,
                ⟨5, "a", "Food (In)", "x", 150⟩] : List Record).length - 1) :=
  ⟨by decide,
    delete_options_spec
      [⟨5, "a", "Food (In)", "x", 100⟩, ⟨6, "b", "Food (In)", "y", 50⟩,
       ⟨5, "a", "Food (In)", "x", 150⟩]
      (5, "a", "x") 0 (by decide)⟩

end HealthTracker
